import Mathlib

/-!
Shallow embedding of the pyshepherd sequencing backend
(pyshepherd/backend: clip.py, track.py, session.py, musical_context.py,
hardware_device.py) and proofs about the claims of its specification.

Python floats are modelled as exact rationals, Python ints as integers,
`random.random()` draws as an explicit stream of rationals, MIDI output as
an explicit list of messages, and in-place mutation as state-returning
functions.
-/

/-- Python float modulo `x % y` for `y > 0`: `x - y * floor (x / y)`.
Used by `Clip.process_slice` (clip.py line 102). -/
def pymod (x y : ℚ) : ℚ :=
  x - y * ((Int.floor (x / y) : ℤ) : ℚ)

/-- Python 3 `round` (banker's rounding, half to even), as used by
`Clip.quantize_events` (clip.py line 186). -/
def pyround (q : ℚ) : ℤ :=
  if q - ((Int.floor q : ℤ) : ℚ) < 1 / 2 then Int.floor q
  else if 1 / 2 < q - ((Int.floor q : ℤ) : ℚ) then Int.floor q + 1
  else if Int.floor q % 2 = 0 then Int.floor q else Int.floor q + 1

/-- A MIDI message as constructed through `mido.Message` in the source.
Channels are already shifted to the 0-15 wire representation where the
source subtracts 1. -/
inductive MidiMessage where
  | noteOn (channel note velocity : ℤ)
  | noteOff (channel note velocity : ℤ)
  | controlChange (channel control value : ℤ)
deriving DecidableEq

/-- clip.py `SequenceEvent`: a MIDI event in a clip sequence.
The `uuid` field is omitted: none of the verified operations depend on it. -/
structure SequenceEvent where
  timestamp : ℚ
  note : ℤ
  velocity : ℤ
  duration : ℚ
  channel : ℤ
  chance : ℚ
deriving DecidableEq

/-- clip.py `Clip`: playback state, settings and sequence data.
The `uuid`, `name`, cue-point and back-reference (`track`) fields are
omitted; MIDI emission is returned as a message list instead of being
pushed through the track. -/
structure Clip where
  is_playing : Bool
  is_recording : Bool
  playhead_position_beats : ℚ
  length_beats : ℚ
  bpm_multiplier : ℚ
  quantization_step : ℚ
  wrap_events_across_loop : Bool
  sequence_events : List SequenceEvent
deriving DecidableEq

/-- Clip constructed by `Clip.__init__` (clip.py lines 36-59). -/
def defaultClip : Clip :=
  { is_playing := false
    is_recording := false
    playhead_position_beats := 0
    length_beats := 4
    bpm_multiplier := 1
    quantization_step := 1 / 4
    wrap_events_across_loop := true
    sequence_events := [] }

/-- clip.py `Clip.play` (lines 61-64). -/
def Clip.play (c : Clip) : Clip :=
  { c with is_playing := true, playhead_position_beats := 0 }

/-- clip.py `Clip.stop` (lines 66-69). -/
def Clip.stop (c : Clip) : Clip :=
  { c with is_playing := false, playhead_position_beats := 0 }

/-- clip.py `Clip._event_intersects_slice` (lines 132-135). -/
def event_intersects_slice (event_start event_end slice_start slice_end : ℚ) : Bool :=
  !(decide (event_end ≤ slice_start) || decide (event_start ≥ slice_end))

/-- clip.py `Clip._send_midi_for_event` (lines 137-161): one uniform draw
`r` gates the event (`random.random() > event.chance` skips); if it fires,
a note-on and an immediate note-off (velocity 0) are both produced in the
same call (the deferred note-off is an explicit TODO in the source). -/
def send_midi_for_event (e : SequenceEvent) (r : ℚ) : List MidiMessage :=
  if r > e.chance then []
  else [MidiMessage.noteOn (e.channel - 1) e.note e.velocity,
        MidiMessage.noteOff (e.channel - 1) e.note 0]

/-- Loop body of clip.py `Clip._generate_midi_for_slice` (lines 110-130):
iterates the events, applies the wrap rules to the event boundaries, and
intersects each event against the (untranslated) slice range.  `rand k` is
the k-th `random.random()` draw; one draw is consumed per intersecting
event (inside `_send_midi_for_event`). -/
def generate_midi_go (clip : Clip) (start_beats end_beats : ℚ) (rand : ℕ → ℚ) :
    List SequenceEvent → ℕ → List MidiMessage
  | [], _ => []
  | e :: rest, k =>
    let event_start := e.timestamp
    let event_end := e.timestamp + e.duration
    if clip.wrap_events_across_loop = true ∧ clip.length_beats ≤ event_start then
      generate_midi_go clip start_beats end_beats rand rest k
    else
      let event_end :=
        if clip.wrap_events_across_loop = true ∧ clip.length_beats < event_end then
          pymod event_end clip.length_beats
        else event_end
      if event_intersects_slice event_start event_end start_beats end_beats then
        send_midi_for_event e (rand k) ++
          generate_midi_go clip start_beats end_beats rand rest (k + 1)
      else
        generate_midi_go clip start_beats end_beats rand rest k

/-- clip.py `Clip._generate_midi_for_slice` (lines 110-130). -/
def Clip.generate_midi_for_slice (clip : Clip) (slice_range : ℚ × ℚ) (rand : ℕ → ℚ) :
    List MidiMessage :=
  generate_midi_go clip slice_range.1 slice_range.2 rand clip.sequence_events 0

/-- clip.py `Clip.process_slice` (lines 88-108): advance the playhead by
the slice length, wrap it modulo the clip length (`wrap=true`) or stop the
clip and return without generating MIDI (`wrap=false`), then intersect the
events against the incoming slice range. -/
def Clip.process_slice (clip : Clip) (slice_range : ℚ × ℚ) (rand : ℕ → ℚ) :
    Clip × List MidiMessage :=
  if clip.is_playing = false then (clip, [])
  else
    let slice_length := slice_range.2 - slice_range.1
    let clip1 : Clip :=
      { clip with playhead_position_beats := clip.playhead_position_beats + slice_length }
    if clip1.length_beats ≤ clip1.playhead_position_beats then
      if clip1.wrap_events_across_loop = true then
        let clip2 : Clip :=
          { clip1 with playhead_position_beats := (pymod clip1.playhead_position_beats clip1.length_beats) }
        (clip2, clip2.generate_midi_for_slice slice_range rand)
      else
        (clip1.stop, [])
    else
      (clip1, clip1.generate_midi_for_slice slice_range rand)

/-- Iterate `Clip.process_slice` over a list of slice ranges, discarding
the generated MIDI (the playhead evolution does not depend on it). -/
def Clip.process_slices (clip : Clip) (slices : List (ℚ × ℚ)) (rand : ℕ → ℚ) : Clip :=
  match slices with
  | [] => clip
  | s :: rest => Clip.process_slices (clip.process_slice s rand).1 rest rand

/-- Timestamp quantization formula of clip.py `Clip.quantize_events`
(line 186): `round(timestamp / step) * step`. -/
def quantize_timestamp (step t : ℚ) : ℚ :=
  ((pyround (t / step) : ℤ) : ℚ) * step

/-- clip.py `Clip.quantize_events` (lines 182-186): stores the step first,
then rewrites every timestamp.  Python raises `ZeroDivisionError` on
`round(t / 0)` at the first event, after `quantization_step` has already
been overwritten and before any timestamp changed; `Except.error` carries
that intermediate state.  With no events the loop body never runs, so
`step = 0` succeeds vacuously.  Negative steps are accepted. -/
def Clip.quantize_events (clip : Clip) (step : ℚ) : Except Clip Clip :=
  let clip1 : Clip := { clip with quantization_step := step }
  if step = 0 then
    if clip1.sequence_events.isEmpty then Except.ok clip1
    else Except.error clip1
  else
    Except.ok { clip1 with sequence_events :=
      clip1.sequence_events.map (fun e => { e with timestamp := quantize_timestamp step e.timestamp }) }

/-- track.py `Track`: clips (one per scene) plus hardware routing fields.
The `uuid`, `name` and back-reference (`session`) fields are omitted. -/
structure Track where
  output_hardware_device_name : String
  input_monitoring : Bool
  clips : List Clip
deriving DecidableEq

/-- Loop of track.py `Track.play_clip` (lines 61-69): every clip other
than the target that is playing is stopped; the target itself is played.
`i` is the index of the first clip of the remaining list. -/
def play_clip_loop (target : ℕ) : ℕ → List Clip → List Clip
  | _, [] => []
  | i, c :: rest =>
    (if i = target then c.play
     else if c.is_playing then c.stop else c) :: play_clip_loop target (i + 1) rest

/-- track.py `Track.play_clip` (lines 61-69): a no-op when `get_clip`
returns `None` (index out of range). -/
def Track.play_clip (t : Track) (scene_idx : ℕ) : Track :=
  if scene_idx < t.clips.length then
    { t with clips := play_clip_loop scene_idx 0 t.clips }
  else t

/-- track.py `Track.stop_all_clips` (lines 71-74). -/
def Track.stop_all_clips (t : Track) : Track :=
  { t with clips := t.clips.map Clip.stop }

/-- The effect of session.py `Session.play_scene` on one track (line 52):
`track.clips[scene_idx].play()` — only the scene clip changes. -/
def Track.play_clip_at (t : Track) (scene_idx : ℕ) : Track :=
  match t.clips[scene_idx]? with
  | some c => { t with clips := t.clips.set scene_idx c.play }
  | none => t

/-- session.py `Session`: fixed grid of tracks.  The `uuid`, `name` and
back-reference (`sequencer`) fields are omitted. -/
structure Session where
  num_tracks : ℕ
  num_scenes : ℕ
  fixed_length_recording_bars : ℕ
  record_automation_enabled : Bool
  fixed_velocity : ℤ
  tracks : List Track
deriving DecidableEq

/-- session.py `Session.play_scene` (lines 47-52): for every track whose
clip list is long enough, play the clip at `scene_idx` directly (other
clips of the track are left untouched). -/
def Session.play_scene (s : Session) (scene_idx : ℕ) : Session :=
  if scene_idx < s.num_scenes then
    { s with tracks := s.tracks.map (fun t =>
        if scene_idx < t.clips.length then t.play_clip_at scene_idx else t) }
  else s

/-- session.py `Session.stop_all_clips` (lines 54-58). -/
def Session.stop_all_clips (s : Session) : Session :=
  { s with tracks := s.tracks.map Track.stop_all_clips }

/-- The per-track invariant stated by the specification: at most one of a
track's clips is playing. -/
abbrev Track.at_most_one_playing (t : Track) : Prop :=
  (t.clips.filter (fun c => c.is_playing)).length ≤ 1

/-- musical_context.py `MusicalContext` (lines 8-23).  Wall-clock times
are explicit rational inputs. -/
structure MusicalContext where
  bpm : ℚ
  meter : ℤ
  metronome_on : Bool
  playhead_position_beats : ℚ
  is_playing : Bool
  doing_count_in : Bool
  count_in_position_beats : ℚ
  sample_rate : ℚ
  bar_count : ℤ
  last_update_time : ℚ
deriving DecidableEq

/-- musical_context.py `MusicalContext.set_bpm` (lines 29-32). -/
def MusicalContext.set_bpm (m : MusicalContext) (bpm : ℚ) : MusicalContext :=
  if 0 < bpm then { m with bpm := bpm } else m

/-- musical_context.py `MusicalContext.set_meter` (lines 34-37). -/
def MusicalContext.set_meter (m : MusicalContext) (meter : ℤ) : MusicalContext :=
  if 0 < meter then { m with meter := meter } else m

/-- musical_context.py `MusicalContext.get_current_slice_range`
(lines 49-67): `now` stands for the `time.time()` call; the Python
parameter `samples_per_slice` is kept though the source never reads it.
Returns the slice range together with the updated context. -/
def MusicalContext.get_current_slice_range (m : MusicalContext) (now : ℚ)
    (samples_per_slice : ℤ) : (ℚ × ℚ) × MusicalContext :=
  if m.is_playing = true then
    let elapsed_seconds := now - m.last_update_time
    let elapsed_beats := elapsed_seconds * (m.bpm / 60)
    let start_position := m.playhead_position_beats
    let end_position := m.playhead_position_beats + elapsed_beats
    ((start_position, end_position),
     { m with playhead_position_beats := end_position, last_update_time := now })
  else
    ((m.playhead_position_beats, m.playhead_position_beats), m)

/-- hardware_device.py `HardwareDevice` (lines 6-24), restricted to the
fields the CC-cache operations read: the device direction, the MIDI
channel and the per-CC value cache (`None` = never set). -/
structure HardwareDevice where
  device_type : String
  midi_channel : ℤ
  midi_cc_values : ℤ → Option ℤ

/-- hardware_device.py `HardwareDevice.get_current_midi_cc_parameter_value`
(lines 101-103): `self._midi_cc_values.get(cc_number, 0)`. -/
def HardwareDevice.get_current_midi_cc_parameter_value (d : HardwareDevice)
    (cc_number : ℤ) : ℤ :=
  (d.midi_cc_values cc_number).getD 0

/-- hardware_device.py `HardwareDevice.set_midi_cc_parameter_value`
(lines 105-117): clamp to [0,127], update the cache, and emit a
control-change message when the device is an output. -/
def HardwareDevice.set_midi_cc_parameter_value (d : HardwareDevice)
    (cc_number v : ℤ) : HardwareDevice × List MidiMessage :=
  let value := max 0 (min 127 v)
  let d1 : HardwareDevice :=
    { d with midi_cc_values := fun c => if c = cc_number then some value else d.midi_cc_values c }
  if d.device_type = "output" then
    (d1, [MidiMessage.controlChange (d.midi_channel - 1) cc_number value])
  else
    (d1, [])

/-! Concrete instances used below to evaluate the embedded code on the
inputs the claims talk about. -/

/-- A random stream whose every draw is 1/2. -/
def randHalf : ℕ → ℚ := fun _ => 1 / 2

/-- An event living in the second wraparound sub-window: clip-local
position 0.05, duration 0.1, certain to fire. -/
def eventNearLoopStart : SequenceEvent :=
  { timestamp := 1 / 20, note := 60, velocity := 100, duration := 1 / 10
    channel := 1, chance := 1 }

/-- Playing wrap-enabled clip of length 4 with its playhead at 3.9,
holding `eventNearLoopStart`. -/
def clipAtLoopEdge : Clip :=
  { defaultClip with
    is_playing := true
    playhead_position_beats := 39 / 10
    sequence_events := [eventNearLoopStart] }

/-- An event with positive duration (0.25 beats), certain to fire. -/
def eventWithDuration : SequenceEvent :=
  { timestamp := 1 / 2, note := 60, velocity := 100, duration := 1 / 4
    channel := 1, chance := 1 }

/-- Playing clip holding `eventWithDuration`, playhead at 0. -/
def clipWithDuration : Clip :=
  { defaultClip with is_playing := true, sequence_events := [eventWithDuration] }

/-- Playing wrap-enabled clip of length 4 with playhead 3.9 and no
events (the spec's concrete wraparound test vector). -/
def clipWrapVector : Clip :=
  { defaultClip with is_playing := true, playhead_position_beats := 39 / 10 }

/-- An event inside the final window [1.5, 2) of a length-2 clip. -/
def eventInFinalWindow : SequenceEvent :=
  { timestamp := 9 / 5, note := 62, velocity := 90, duration := 1 / 10
    channel := 1, chance := 1 }

/-- Playing non-wrapping clip of length 2 with playhead 1.5, holding
`eventInFinalWindow`. -/
def clipNoWrap : Clip :=
  { defaultClip with
    is_playing := true
    wrap_events_across_loop := false
    length_beats := 2
    playhead_position_beats := 3 / 2
    sequence_events := [eventInFinalWindow] }

/-- An event with `chance = 0`. -/
def eventChanceZero : SequenceEvent :=
  { timestamp := 0, note := 64, velocity := 80, duration := 1, channel := 1, chance := 0 }

/-- An event with `chance = 1`. -/
def eventChanceOne : SequenceEvent :=
  { timestamp := 0, note := 65, velocity := 70, duration := 1, channel := 1, chance := 1 }

/-- A clip holding one off-grid event, for quantization. -/
def clipToQuantize : Clip :=
  { defaultClip with sequence_events :=
      [{ timestamp := 11 / 10, note := 60, velocity := 100, duration := 1 / 2
         channel := 1, chance := 1 }] }

/-- A track whose first clip is playing and whose second is stopped. -/
def trackOnePlaying : Track :=
  { output_hardware_device_name := "", input_monitoring := false
    clips := [defaultClip.play, defaultClip] }

/-- A one-track, two-scene session built over `trackOnePlaying`. -/
def sessionOnePlaying : Session :=
  { num_tracks := 1, num_scenes := 2, fixed_length_recording_bars := 0
    record_automation_enabled := false, fixed_velocity := 100
    tracks := [trackOnePlaying] }

/-- musical_context.py `MusicalContext.__init__` (lines 8-23), with the
initial `time.time()` reading taken as 0. -/
def defaultMusicalContext : MusicalContext :=
  { bpm := 120, meter := 4, metronome_on := false
    playhead_position_beats := 0, is_playing := false
    doing_count_in := false, count_in_position_beats := 0
    sample_rate := 44100, bar_count := 0, last_update_time := 0 }

/-- A stopped musical context with a nonzero playhead. -/
def contextStopped : MusicalContext :=
  { defaultMusicalContext with playhead_position_beats := 7 / 2 }

/-- A fresh output device on channel 1 with an empty CC cache. -/
def deviceFreshOutput : HardwareDevice :=
  { device_type := "output", midi_channel := 1, midi_cc_values := fun _ => none }

/-! Helper lemmas. -/

/-- Python float modulo by a positive divisor is nonnegative. -/
theorem pymod_nonneg (x y : ℚ) (hy : 0 < y) : 0 ≤ pymod x y := by
  have h : ((Int.floor (x / y) : ℤ) : ℚ) * y ≤ x := (le_div_iff₀ hy).mp (Int.floor_le (x / y))
  unfold pymod
  nlinarith

/-- Python float modulo by a positive divisor is below the divisor. -/
theorem pymod_lt (x y : ℚ) (hy : 0 < y) : pymod x y < y := by
  have h1 : x / y < ((Int.floor (x / y) : ℤ) : ℚ) + 1 := Int.lt_floor_add_one (x / y)
  have h2 : x < (((Int.floor (x / y) : ℤ) : ℚ) + 1) * y := (div_lt_iff₀ hy).mp h1
  unfold pymod
  nlinarith

/-- One `process_slice` call on a playing-or-stopped wrap-enabled clip
keeps the playhead inside `[0, length_beats)` and preserves the wrap flag
and length. -/
theorem process_slice_fst_inv (clip : Clip) (p : ℚ × ℚ) (rand : ℕ → ℚ)
    (hw : clip.wrap_events_across_loop = true)
    (hl : 0 < clip.length_beats)
    (h0 : 0 ≤ clip.playhead_position_beats)
    (h1 : clip.playhead_position_beats < clip.length_beats)
    (hse : p.1 ≤ p.2) :
    (clip.process_slice p rand).1.wrap_events_across_loop = true ∧
    (clip.process_slice p rand).1.length_beats = clip.length_beats ∧
    0 ≤ (clip.process_slice p rand).1.playhead_position_beats ∧
    (clip.process_slice p rand).1.playhead_position_beats <
      (clip.process_slice p rand).1.length_beats := by
  unfold Clip.process_slice
  by_cases hp : clip.is_playing = false
  · rw [if_pos hp]
    exact ⟨hw, rfl, h0, h1⟩
  · rw [if_neg hp]
    dsimp only
    by_cases hover : clip.length_beats ≤ clip.playhead_position_beats + (p.2 - p.1)
    · rw [if_pos hover, if_pos hw]
      dsimp only
      exact ⟨hw, rfl, pymod_nonneg _ _ hl, pymod_lt _ _ hl⟩
    · rw [if_neg hover]
      dsimp only
      refine ⟨hw, rfl, by linarith, by linarith [not_le.mp hover]⟩

/-- Iterating `process_slice` over forward slices keeps a wrap-enabled
clip's playhead inside `[0, length_beats)`. -/
theorem process_slices_inv (slices : List (ℚ × ℚ)) :
    ∀ (clip : Clip) (rand : ℕ → ℚ),
      clip.wrap_events_across_loop = true → 0 < clip.length_beats →
      0 ≤ clip.playhead_position_beats →
      clip.playhead_position_beats < clip.length_beats →
      (∀ p ∈ slices, p.1 ≤ p.2) →
      (clip.process_slices slices rand).wrap_events_across_loop = true ∧
      (clip.process_slices slices rand).length_beats = clip.length_beats ∧
      0 ≤ (clip.process_slices slices rand).playhead_position_beats ∧
      (clip.process_slices slices rand).playhead_position_beats <
        (clip.process_slices slices rand).length_beats := by
  induction slices with
  | nil =>
    intro clip rand hw hl h0 h1 _
    exact ⟨hw, rfl, h0, h1⟩
  | cons p rest ih =>
    intro clip rand hw hl h0 h1 hs
    obtain ⟨hw1, hlen1, h01, h11⟩ :=
      process_slice_fst_inv clip p rand hw hl h0 h1 (hs p (by simp))
    have hstep := ih (clip.process_slice p rand).1 rand hw1 (by rw [hlen1]; exact hl)
      h01 h11 (fun q hq => hs q (by simp [hq]))
    rw [Clip.process_slices]
    exact ⟨hstep.1, by rw [hstep.2.1, hlen1], hstep.2.2.1, hstep.2.2.2⟩

/-- After the `play_clip` stopping loop has passed the target index, no
clip of the remainder is left playing. -/
theorem play_clip_loop_filter_nil (target : ℕ) (cs : List Clip) :
    ∀ i, target < i →
      (play_clip_loop target i cs).filter (fun c => c.is_playing) = [] := by
  induction cs with
  | nil => intro i _; rfl
  | cons c rest ih =>
    intro i hi
    have hne : ¬ (i = target) := by omega
    unfold play_clip_loop
    rw [if_neg hne]
    by_cases hc : c.is_playing
    · rw [if_pos hc]
      simp only [List.filter_cons, Clip.stop, Bool.false_eq_true, if_false]
      exact ih (i + 1) (by omega)
    · rw [if_neg hc]
      simp only [List.filter_cons, hc, if_false]
      exact ih (i + 1) (by omega)

/-- The `play_clip` stopping loop leaves at most one clip playing. -/
theorem play_clip_loop_filter_le_one (target : ℕ) (cs : List Clip) :
    ∀ i, ((play_clip_loop target i cs).filter (fun c => c.is_playing)).length ≤ 1 := by
  induction cs with
  | nil => intro i; simp [play_clip_loop]
  | cons c rest ih =>
    intro i
    unfold play_clip_loop
    by_cases hit : i = target
    · rw [if_pos hit]
      have h0 := play_clip_loop_filter_nil target rest (i + 1) (by omega)
      simp [List.filter_cons, Clip.play, h0]
    · rw [if_neg hit]
      by_cases hc : c.is_playing
      · rw [if_pos hc]
        simp only [List.filter_cons, Clip.stop, Bool.false_eq_true, if_false]
        exact ih (i + 1)
      · rw [if_neg hc]
        simp only [List.filter_cons, hc, if_false]
        exact ih (i + 1)

/-- `Track.play_clip` preserves the single-playing-clip invariant. -/
theorem track_play_clip_at_most_one (t : Track) (idx : ℕ)
    (h : t.at_most_one_playing) : (t.play_clip idx).at_most_one_playing := by
  unfold Track.play_clip
  split_ifs with hlt
  · exact play_clip_loop_filter_le_one idx t.clips 0
  · exact h

/-- Stopping every clip leaves none playing. -/
theorem filter_playing_map_stop (cs : List Clip) :
    (cs.map Clip.stop).filter (fun c => c.is_playing) = [] := by
  induction cs with
  | nil => rfl
  | cons c rest ih => simp [Clip.stop, ih]

/-! Claim theorems. -/

/-- Claim C1: the specification requires wraparound-aware split-window
event intersection; the code instead intersects events against the raw,
untranslated slice range.  Evaluated at the failing input: a playing
wrap-enabled clip of length 4 with playhead 3.9 and an event at clip-local
0.05 (duration 0.1, chance 1), processed over the slice (3.9, 4.1).  The
playhead wraps to 0.1, yet no MIDI is emitted, although the event lies
inside the claim's second sub-window [0, 0.1) and passes the chance gate. -/
theorem C1_unsplit_window_code_behavior :
    clipAtLoopEdge.process_slice (39/10, 41/10) randHalf =
      ({ clipAtLoopEdge with playhead_position_beats := 1/10 }, []) ∧
    event_intersects_slice eventNearLoopStart.timestamp
      (eventNearLoopStart.timestamp + eventNearLoopStart.duration) 0 (1/10) = true ∧
    send_midi_for_event eventNearLoopStart (randHalf 0) ≠ [] := by
  refine ⟨?_, ?_, ?_⟩
  · norm_num [Clip.process_slice, Clip.generate_midi_for_slice, generate_midi_go,
      send_midi_for_event, event_intersects_slice, pymod, clipAtLoopEdge,
      defaultClip, eventNearLoopStart, randHalf]
  · norm_num [event_intersects_slice, eventNearLoopStart]
  · have h : send_midi_for_event eventNearLoopStart (randHalf 0) =
        [MidiMessage.noteOn 0 60 100, MidiMessage.noteOff 0 60 0] := by
      norm_num [send_midi_for_event, eventNearLoopStart, randHalf]
    rw [h]
    simp

/-- Claim C2: the specification defers the note-off of a positive-duration
event via a pending-note-off registry delivered in a later slice; the code
has no such registry and emits the note-off (velocity 0) in the very same
`process_slice` call as the note-on (the immediate note-off is an explicit
TODO in clip.py lines 159-161).  Evaluated at the failing input: a playing
clip with one event (timestamp 0.5, duration 0.25 > 0, chance 1) over
slice (0, 1) with draw 0.5. -/
theorem C2_immediate_note_off_code_behavior :
    0 < eventWithDuration.duration ∧
    clipWithDuration.process_slice (0, 1) randHalf =
      ({ clipWithDuration with playhead_position_beats := 1 },
       [MidiMessage.noteOn 0 60 100, MidiMessage.noteOff 0 60 0]) := by
  constructor
  · norm_num [eventWithDuration]
  · norm_num [Clip.process_slice, Clip.generate_midi_for_slice, generate_midi_go,
      send_midi_for_event, event_intersects_slice, pymod, clipWithDuration,
      defaultClip, eventWithDuration, randHalf]

/-- Claim C3, counterexample: `Session.play_scene` plays each track's
scene clip without stopping the track's other clips.  Starting from a
track satisfying the single-playing-clip invariant (clip 0 playing),
`play_scene 1` leaves both clips playing. -/
theorem C3_play_scene_counterexample :
    trackOnePlaying.at_most_one_playing ∧
    ∀ t ∈ (sessionOnePlaying.play_scene 1).tracks, ¬ t.at_most_one_playing := by
  decide

/-- Claim C3, amended: `Track.play_clip` preserves (indeed re-establishes)
the at-most-one-playing-clip-per-track invariant, and the stop-everything
operations (`Track.stop_all_clips`, `Session.stop_all_clips`) leave no
clip playing; `Session.play_scene` is excluded, as it does not preserve
the invariant. -/
theorem C3_invariant_preserving_ops (t : Track) (idx : ℕ) (s : Session)
    (h : t.at_most_one_playing) :
    (t.play_clip idx).at_most_one_playing ∧
    (t.stop_all_clips).at_most_one_playing ∧
    ∀ u ∈ (s.stop_all_clips).tracks, u.at_most_one_playing := by
  refine ⟨track_play_clip_at_most_one t idx h, ?_, ?_⟩
  · unfold Track.stop_all_clips Track.at_most_one_playing
    dsimp only
    rw [filter_playing_map_stop]
    simp
  · intro u hu
    unfold Session.stop_all_clips at hu
    dsimp only at hu
    obtain ⟨t0, _, rfl⟩ := List.mem_map.mp hu
    unfold Track.stop_all_clips Track.at_most_one_playing
    dsimp only
    rw [filter_playing_map_stop]
    simp

/-- Witness for C3's amended theorem at a concrete track and session. -/
theorem C3_invariant_preserving_ops_witness :
    (trackOnePlaying.play_clip 1).at_most_one_playing ∧
    (trackOnePlaying.stop_all_clips).at_most_one_playing ∧
    ∀ u ∈ (sessionOnePlaying.stop_all_clips).tracks, u.at_most_one_playing :=
  C3_invariant_preserving_ops trackOnePlaying 1 sessionOnePlaying (by decide)

/-- Claim C4: for every wrap-enabled clip with positive length whose
playhead starts in `[0, length_beats)`, any finite sequence of forward
`process_slice` calls keeps the playhead in `[0, length_beats)`; in
particular a clip of length 4 at playhead 3.9 advanced by a 0.2-beat
slice ends at playhead 0.1, still playing. -/
theorem C4_wrap_playhead_invariant :
    (∀ (clip : Clip) (slices : List (ℚ × ℚ)) (rand : ℕ → ℚ),
      clip.wrap_events_across_loop = true → 0 < clip.length_beats →
      0 ≤ clip.playhead_position_beats →
      clip.playhead_position_beats < clip.length_beats →
      (∀ p ∈ slices, p.1 ≤ p.2) →
      0 ≤ (clip.process_slices slices rand).playhead_position_beats ∧
      (clip.process_slices slices rand).playhead_position_beats <
        (clip.process_slices slices rand).length_beats) ∧
    (clipWrapVector.process_slice (0, 1/5) randHalf).1.playhead_position_beats = 1/10 ∧
    (clipWrapVector.process_slice (0, 1/5) randHalf).1.is_playing = true := by
  refine ⟨fun clip slices rand hw hl h0 h1 hs => ?_, ?_, ?_⟩
  · have h := process_slices_inv slices clip rand hw hl h0 h1 hs
    exact ⟨h.2.2.1, h.2.2.2⟩
  · norm_num [Clip.process_slice, Clip.generate_midi_for_slice, generate_midi_go,
      pymod, clipWrapVector, defaultClip, randHalf]
  · norm_num [Clip.process_slice, Clip.generate_midi_for_slice, generate_midi_go,
      pymod, clipWrapVector, defaultClip, randHalf]

/-- Witness for C4 at a concrete wrap-enabled clip and slice list. -/
theorem C4_wrap_playhead_invariant_witness :
    0 ≤ (clipWrapVector.process_slices [((39:ℚ)/10, 41/10)] randHalf).playhead_position_beats ∧
    (clipWrapVector.process_slices [((39:ℚ)/10, 41/10)] randHalf).playhead_position_beats <
      (clipWrapVector.process_slices [((39:ℚ)/10, 41/10)] randHalf).length_beats :=
  C4_wrap_playhead_invariant.1 clipWrapVector [((39:ℚ)/10, 41/10)] randHalf rfl
    (by norm_num [clipWrapVector, defaultClip])
    (by norm_num [clipWrapVector, defaultClip])
    (by norm_num [clipWrapVector, defaultClip])
    (by intro p hp; simp only [List.mem_singleton] at hp; rw [hp]; norm_num)

/-- Claim C5, counterexample: with `wrap=false` the code stops the clip
without running event intersection for the final window.  The clip's
event lies inside the remaining window [1.5, 2) and passes the chance
gate, yet `process_slice` over (1.5, 2.5) emits nothing and stops. -/
theorem C5_stop_without_final_window_counterexample :
    clipNoWrap.process_slice (3/2, 5/2) randHalf =
      ({ clipNoWrap with is_playing := false, playhead_position_beats := 0 }, []) ∧
    event_intersects_slice eventInFinalWindow.timestamp
      (eventInFinalWindow.timestamp + eventInFinalWindow.duration)
      clipNoWrap.playhead_position_beats clipNoWrap.length_beats = true ∧
    send_midi_for_event eventInFinalWindow (randHalf 0) ≠ [] := by
  refine ⟨?_, ?_, ?_⟩
  · norm_num [Clip.process_slice, Clip.generate_midi_for_slice, generate_midi_go,
      send_midi_for_event, event_intersects_slice, pymod, clipNoWrap,
      defaultClip, eventInFinalWindow, randHalf, Clip.stop]
  · norm_num [event_intersects_slice, eventInFinalWindow, clipNoWrap, defaultClip]
  · have h : send_midi_for_event eventInFinalWindow (randHalf 0) =
        [MidiMessage.noteOn 0 62 90, MidiMessage.noteOff 0 62 0] := by
      norm_num [send_midi_for_event, eventInFinalWindow, randHalf]
    rw [h]
    simp

/-- Claim C5, amended: a `process_slice` call on a playing non-wrapping
clip whose advanced playhead reaches or exceeds `length_beats` stops the
clip (state Stopped, playhead 0) and emits no MIDI at all: the remaining
window is not intersected. -/
theorem C5_no_wrap_stops_without_midi (clip : Clip) (p : ℚ × ℚ) (rand : ℕ → ℚ)
    (hp : clip.is_playing = true)
    (hw : clip.wrap_events_across_loop = false)
    (hend : clip.length_beats ≤ clip.playhead_position_beats + (p.2 - p.1)) :
    clip.process_slice p rand =
      ({ clip with is_playing := false, playhead_position_beats := 0 }, []) := by
  unfold Clip.process_slice
  rw [if_neg (by rw [hp]; simp)]
  dsimp only
  rw [if_pos hend, if_neg (by rw [hw]; simp)]
  rfl

/-- Witness for C5's amended theorem at the concrete non-wrapping clip. -/
theorem C5_no_wrap_stops_without_midi_witness :
    clipNoWrap.process_slice (3/2, 5/2) randHalf =
      ({ clipNoWrap with is_playing := false, playhead_position_beats := 0 }, []) :=
  C5_no_wrap_stops_without_midi clipNoWrap (3/2, 5/2) randHalf rfl rfl
    (by norm_num [clipNoWrap, defaultClip])

/-- Claim C6, counterexample: a uniform draw from [0, 1) can be exactly 0,
and the gate in `_send_midi_for_event` skips only when `r > chance`, so an
event with `chance = 0` fires at `r = 0`: the claim's corollary that a
chance-0 event never fires, for every value of r, is false. -/
theorem C6_chance_zero_fires_at_zero_counterexample :
    eventChanceZero.chance = 0 ∧
    send_midi_for_event eventChanceZero 0 =
      [MidiMessage.noteOn 0 64 80, MidiMessage.noteOff 0 64 0] := by
  constructor
  · rfl
  · norm_num [send_midi_for_event, eventChanceZero]

/-- Claim C6, amended: an event emits its MIDI in `_send_midi_for_event`
if and only if the draw satisfies `r ≤ chance` (and emits nothing
otherwise); hence `chance = 1` always fires for draws in [0, 1), and
`chance = 0` fires only at `r = 0`, never for `r > 0`. -/
theorem C6_chance_gate (e : SequenceEvent) (r : ℚ) :
    (send_midi_for_event e r ≠ [] ↔ r ≤ e.chance) ∧
    (e.chance = 1 → r < 1 → send_midi_for_event e r =
      [MidiMessage.noteOn (e.channel - 1) e.note e.velocity,
       MidiMessage.noteOff (e.channel - 1) e.note 0]) ∧
    (e.chance = 0 → 0 < r → send_midi_for_event e r = []) := by
  refine ⟨?_, fun h1 hr => ?_, fun h0 hr => ?_⟩
  · unfold send_midi_for_event
    by_cases h : r > e.chance
    · rw [if_pos h]
      simp [not_le.mpr h]
    · rw [if_neg h]
      simp [not_lt.mp h]
  · unfold send_midi_for_event
    rw [if_neg (by rw [h1]; exact not_lt.mpr (le_of_lt hr))]
  · unfold send_midi_for_event
    rw [if_pos (by rw [h0]; exact hr)]

/-- Witness for C6's amended theorem: a chance-1 event fires at draw 1/2. -/
theorem C6_chance_gate_witness :
    send_midi_for_event eventChanceOne (1/2) =
      [MidiMessage.noteOn (eventChanceOne.channel - 1) eventChanceOne.note
         eventChanceOne.velocity,
       MidiMessage.noteOff (eventChanceOne.channel - 1) eventChanceOne.note 0] :=
  (C6_chance_gate eventChanceOne (1/2)).2.1 rfl (by norm_num)

/-- Claim C7: `set_bpm` and `set_meter` silently ignore non-positive
arguments, leaving the whole context unchanged, and store positive
arguments, changing nothing else. -/
theorem C7_set_bpm_set_meter (m : MusicalContext) (x : ℚ) (k : ℤ) :
    (x ≤ 0 → m.set_bpm x = m) ∧
    (0 < x → m.set_bpm x = { m with bpm := x }) ∧
    (k ≤ 0 → m.set_meter k = m) ∧
    (0 < k → m.set_meter k = { m with meter := k }) := by
  refine ⟨fun hx => ?_, fun hx => ?_, fun hk => ?_, fun hk => ?_⟩
  · rw [MusicalContext.set_bpm, if_neg (not_lt.mpr hx)]
  · rw [MusicalContext.set_bpm, if_pos hx]
  · rw [MusicalContext.set_meter, if_neg (not_lt.mpr hk)]
  · rw [MusicalContext.set_meter, if_pos hk]

/-- Witness for C7 at the default context with arguments -1 (rejected),
0 (rejected) and 140, 3 (accepted). -/
theorem C7_set_bpm_set_meter_witness :
    defaultMusicalContext.set_bpm (-1) = defaultMusicalContext ∧
    defaultMusicalContext.set_meter 0 = defaultMusicalContext ∧
    defaultMusicalContext.set_bpm 140 = { defaultMusicalContext with bpm := 140 } ∧
    defaultMusicalContext.set_meter 3 = { defaultMusicalContext with meter := 3 } :=
  ⟨(C7_set_bpm_set_meter defaultMusicalContext (-1) 0).1 (by norm_num),
   (C7_set_bpm_set_meter defaultMusicalContext (-1) 0).2.2.1 (by norm_num),
   (C7_set_bpm_set_meter defaultMusicalContext 140 3).2.1 (by norm_num),
   (C7_set_bpm_set_meter defaultMusicalContext 140 3).2.2.2 (by norm_num)⟩

/-- Claim C8: after `set_midi_cc_parameter_value cc v` the cached value
read back for `cc` is `max 0 (min 127 v)` for every integer `v`, and a
never-set CC number reads back as the default 0. -/
theorem C8_cc_clamp_and_default (d : HardwareDevice) (cc v : ℤ) :
    (d.set_midi_cc_parameter_value cc v).1.get_current_midi_cc_parameter_value cc =
      max 0 (min 127 v) ∧
    (∀ c, d.midi_cc_values c = none →
      d.get_current_midi_cc_parameter_value c = 0) := by
  constructor
  · unfold HardwareDevice.set_midi_cc_parameter_value
      HardwareDevice.get_current_midi_cc_parameter_value
    dsimp only
    split_ifs <;> simp
  · intro c hc
    unfold HardwareDevice.get_current_midi_cc_parameter_value
    rw [hc]
    rfl

/-- Witness for C8: setting CC 130 to the out-of-range value 200 on a
fresh output device caches 127, and the never-set CC 5 reads back 0. -/
theorem C8_cc_clamp_and_default_witness :
    (deviceFreshOutput.set_midi_cc_parameter_value 130 200).1.get_current_midi_cc_parameter_value 130 =
      max 0 (min 127 200) ∧
    deviceFreshOutput.get_current_midi_cc_parameter_value 5 = 0 :=
  ⟨(C8_cc_clamp_and_default deviceFreshOutput 130 200).1,
   (C8_cc_clamp_and_default deviceFreshOutput 130 200).2 5 rfl⟩

/-- Claim C9: when the context is not playing, `get_current_slice_range`
returns the degenerate range `(p, p)` at the current playhead and leaves
the whole context unchanged, so a repeated call returns the same pair. -/
theorem C9_stopped_slice_range (m : MusicalContext) (now now2 : ℚ) (sps sps2 : ℤ)
    (h : m.is_playing = false) :
    m.get_current_slice_range now sps =
      ((m.playhead_position_beats, m.playhead_position_beats), m) ∧
    ((m.get_current_slice_range now sps).2.get_current_slice_range now2 sps2).1 =
      (m.playhead_position_beats, m.playhead_position_beats) := by
  have h1 : m.get_current_slice_range now sps =
      ((m.playhead_position_beats, m.playhead_position_beats), m) := by
    unfold MusicalContext.get_current_slice_range
    rw [if_neg (by rw [h]; simp)]
  refine ⟨h1, ?_⟩
  rw [h1]
  unfold MusicalContext.get_current_slice_range
  rw [if_neg (by rw [h]; simp)]

/-- Witness for C9 at a concrete stopped context and two wall-clock
readings. -/
theorem C9_stopped_slice_range_witness :
    contextStopped.get_current_slice_range 10 512 =
      ((contextStopped.playhead_position_beats, contextStopped.playhead_position_beats),
       contextStopped) ∧
    ((contextStopped.get_current_slice_range 10 512).2.get_current_slice_range 11 512).1 =
      (contextStopped.playhead_position_beats, contextStopped.playhead_position_beats) :=
  C9_stopped_slice_range contextStopped 10 11 512 512 rfl

/-- Claim C10: `quantize_events step` stores `quantization_step = step`
first; for `step ≠ 0` (negative steps included) it is total and rewrites
every timestamp to `round(timestamp / step) * step`; for `step = 0` with
at least one event the division raises after the step was already
overwritten, leaving timestamps untouched in the error state. -/
theorem C10_quantize_events (clip : Clip) (step : ℚ) :
    (step ≠ 0 → clip.quantize_events step =
      Except.ok { clip with quantization_step := step, sequence_events :=
        clip.sequence_events.map (fun e => { e with timestamp := quantize_timestamp step e.timestamp }) }) ∧
    (clip.sequence_events ≠ [] → clip.quantize_events 0 =
      Except.error { clip with quantization_step := 0 }) := by
  constructor
  · intro hs
    unfold Clip.quantize_events
    rw [if_neg hs]
  · intro he
    unfold Clip.quantize_events
    dsimp only
    rw [if_pos rfl, if_neg (by simp [List.isEmpty_iff, he])]

/-- Witness for C10 at a clip with one off-grid event, applying both the
total positive-step case and the step-0 failure case. -/
theorem C10_quantize_events_witness :
    clipToQuantize.quantize_events (1/2) =
      Except.ok { clipToQuantize with quantization_step := 1/2, sequence_events :=
        clipToQuantize.sequence_events.map (fun e => { e with timestamp := quantize_timestamp (1/2) e.timestamp }) } ∧
    clipToQuantize.quantize_events 0 =
      Except.error { clipToQuantize with quantization_step := 0 } :=
  ⟨(C10_quantize_events clipToQuantize (1/2)).1 (by norm_num),
   (C10_quantize_events clipToQuantize (1/2)).2 (by simp [clipToQuantize, defaultClip])⟩
